import Mathlib

/-!
Shallow embedding of the structured-dataset transformer engine of
`flytekit/types/structured/structured_dataset.py`: the handler registry
(`ENCODERS` / `DECODERS` / `DEFAULT_PROTOCOLS` / `DEFAULT_FORMATS`),
handler registration (`register_handler` via `_handler_finder`), the
encode dispatch (`to_literal` / `encode`, with URI scheme extraction by
`re.search` over the pattern word-chars followed by colon-slash-slash),
and the decode path (`to_python_value` / `open_as`), together with
theorems about registration and dispatch behaviour.

Python dicts are embedded as association lists over `String` keys;
Python exceptions are embedded as an explicit error type threaded
through `Except`.  Each conversion entry point additionally returns the
list of ids of the handlers it invoked, so that invocation counts are
observable.
-/

namespace Flytekit

/-- Association-list lookup, mirroring Python dict indexing. -/
def alookup {β : Type} : List (String × β) → String → Option β
  | [], _ => none
  | (k, v) :: t, q => if k = q then some v else alookup t q

/-- Association-list write, mirroring Python dict assignment. -/
def aset {β : Type} : List (String × β) → String → β → List (String × β)
  | [], k, v => [(k, v)]
  | (k1, v1) :: t, k, v => if k1 = k then (k, v) :: t else (k1, v1) :: aset t k v

/-- Decidable equality of `Except` results, for evaluating the embedded
operations on concrete inputs. -/
instance {ε α : Type} [DecidableEq ε] [DecidableEq α] : DecidableEq (Except ε α) := fun x y =>
  match x, y with
  | .error a, .error b =>
    if h : a = b then .isTrue (by rw [h]) else .isFalse (by intro hh; cases hh; exact h rfl)
  | .ok a, .ok b =>
    if h : a = b then .isTrue (by rw [h]) else .isFalse (by intro hh; cases hh; exact h rfl)
  | .error _, .ok _ => .isFalse (by intro hh; cases hh)
  | .ok _, .error _ => .isFalse (by intro hh; cases hh)

/-- Modelled from the spec: the external schema descriptor
(`flytekit.models.types.StructuredDatasetType`, an ordered list of
column name / column type pairs). -/
structure StructuredDatasetType where
  columns : List (String × String)
deriving DecidableEq

/-- Modelled from the spec: metadata of the external literal model
(`flytekit.models.literals.StructuredDatasetMetadata`): a format tag
plus a schema descriptor. -/
structure StructuredDatasetMetadata where
  format : String
  structured_dataset_type : StructuredDatasetType
deriving DecidableEq

/-- Modelled from the spec: the external literal model
(`flytekit.models.literals.StructuredDataset`, the IDL value): a URI
plus metadata. -/
structure StructuredDatasetModel where
  uri : String
  metadata : StructuredDatasetMetadata
deriving DecidableEq

/-- Modelled from the spec: the scalar layer of the outward literal. -/
structure Scalar where
  structured_dataset : StructuredDatasetModel
deriving DecidableEq

/-- Modelled from the spec: the outward literal representation. -/
structure Literal where
  scalar : Scalar
deriving DecidableEq

/-- Modelled from the spec: the expected literal-type descriptor
(`flytekit.models.types.LiteralType`, restricted to the structured
dataset variant the engine reads). -/
structure LiteralType where
  structured_dataset_type : StructuredDatasetType
deriving DecidableEq

/-- Python exceptions the embedded code can raise: `ValueError` on a
duplicate registration (carrying the offending triple, as the source
message interpolates it), `KeyError` on a missing dict key,
`AttributeError` (calling a method on `None`), `AssertionError` (a
failed `assert` statement), a bare `Exception` with its message string,
and `TypeError` carrying the offending keyword-argument name. -/
inductive PyErr where
  | valueError (python_type protocol format : String)
  | keyError (key : String)
  | attributeError
  | assertionError
  | exceptionMsg (msg : String)
  | typeError (kwarg : String)
deriving DecidableEq

/-- Python runtime values the engine handles: `None`, a plain object of
some runtime class carrying an opaque payload, or an instance of the
user-facing `StructuredDataset` wrapper class (fields `_dataframe`,
`_uri`, `_file_format`, `_metadata`). -/
inductive PyVal where
  | pyNone
  | obj (ty : String) (payload : Nat)
  | sd (dataframe : PyVal) (uri : Option String) (file_format : String)
       (metadata : Option StructuredDatasetMetadata)
deriving DecidableEq

/-- Runtime class name of a value, as Python `type(v)` reports it. -/
def pytypeOf : PyVal → String
  | .pyNone => "NoneType"
  | .obj ty _ => ty
  | .sd _ _ _ _ => "StructuredDataset"

/-- Constructor call `StructuredDataset(...)` with keyword arguments in
signature order; `none` stands for an omitted argument, to which the
signature defaults apply (`dataframe=None`, `uri=None`,
`file_format="parquet"`, `metadata=None`). -/
def StructuredDataset.init (dataframe : PyVal) (uri : Option String)
    (file_format : Option String) (metadata : Option StructuredDatasetMetadata) : PyVal :=
  .sd dataframe uri (file_format.getD "parquet") metadata

/-- Parameter names of `StructuredDataset.__init__`, from its signature
in the source (besides `self`). -/
def sdInitParams : List String := ["dataframe", "uri", "file_format", "metadata"]

/-- A keyword-argument value for a call of `StructuredDataset.__init__`. -/
inductive KwVal where
  | vStr (s : String)
  | vOptStr (s : Option String)
  | vMeta (m : Option StructuredDatasetMetadata)
  | vObj (v : PyVal)
deriving DecidableEq

/-- Call `StructuredDataset(**kwargs)`: Python raises `TypeError` when a
keyword does not name a parameter of `__init__`; otherwise the fields
are bound, with the signature defaults for the omitted ones. -/
def callSDInit (kwargs : List (String × KwVal)) : Except PyErr PyVal :=
  match kwargs.find? (fun kv => !(sdInitParams.contains kv.1)) with
  | some kv => .error (.typeError kv.1)
  | none =>
    let dataframe := match alookup kwargs "dataframe" with
      | some (.vObj v) => v
      | _ => .pyNone
    let uri := match alookup kwargs "uri" with
      | some (.vStr s) => some s
      | some (.vOptStr s) => s
      | _ => none
    let ff := match alookup kwargs "file_format" with
      | some (.vStr s) => s
      | _ => "parquet"
    let md := match alookup kwargs "metadata" with
      | some (.vMeta m) => m
      | _ => none
    .ok (.sd dataframe uri ff md)

/-- A registered encoder: its bound dataframe class (by runtime class
name), storage protocol and supported format, plus an id under which its
`encode` behaviour is looked up when it is invoked. -/
structure StructuredDatasetEncoder where
  id : Nat
  python_type : String
  protocol : String
  supported_format : String
deriving DecidableEq

/-- Constructor of `StructuredDatasetEncoder`: `supported_format or ""`
in the source means an omitted or empty format becomes the empty
string. -/
def StructuredDatasetEncoder.init (id : Nat) (python_type protocol : String)
    (supported_format : Option String) : StructuredDatasetEncoder :=
  ⟨id, python_type, protocol, supported_format.getD ""⟩

/-- A registered decoder, structurally identical to an encoder. -/
structure StructuredDatasetDecoder where
  id : Nat
  python_type : String
  protocol : String
  supported_format : String
deriving DecidableEq

/-- Constructor of `StructuredDatasetDecoder`, with the same
`supported_format or ""` defaulting. -/
def StructuredDatasetDecoder.init (id : Nat) (python_type protocol : String)
    (supported_format : Option String) : StructuredDatasetDecoder :=
  ⟨id, python_type, protocol, supported_format.getD ""⟩

/-- The `Handlers` union of the source: an encoder or a decoder. -/
inductive Handlers where
  | enc (e : StructuredDatasetEncoder)
  | dec (d : StructuredDatasetDecoder)
deriving DecidableEq

/-- Bound dataframe class name of a handler (`h.python_type`). -/
def Handlers.hty : Handlers → String
  | .enc e => e.python_type
  | .dec d => d.python_type

/-- Bound storage protocol of a handler (`h.protocol`). -/
def Handlers.hprot : Handlers → String
  | .enc e => e.protocol
  | .dec d => d.protocol

/-- Bound format of a handler (`h.supported_format`). -/
def Handlers.hfmt : Handlers → String
  | .enc e => e.supported_format
  | .dec d => d.supported_format

/-- The state of `StructuredDatasetTransformerEngine`: the nested
`ENCODERS` and `DECODERS` tables keyed dataframe type, then protocol,
then format; the per-type `DEFAULT_PROTOCOLS` and `DEFAULT_FORMATS`
maps; and the `_type_assertions_enabled` flag set by `__init__`. -/
structure Engine where
  ENCODERS : List (String × List (String × List (String × StructuredDatasetEncoder)))
  DECODERS : List (String × List (String × List (String × StructuredDatasetDecoder)))
  DEFAULT_PROTOCOLS : List (String × String)
  DEFAULT_FORMATS : List (String × String)
  type_assertions_enabled : Bool
deriving DecidableEq

/-- The engine as `__init__` leaves it: the class-level tables are empty
at module load and `_type_assertions_enabled` is set to `False`. -/
def Engine.init : Engine := ⟨[], [], [], [], false⟩

/-- Whether the exact (type, protocol, format) key is present in the
`ENCODERS` table. -/
def Engine.hasEnc (E : Engine) (t p f : String) : Bool :=
  (alookup ((alookup ((alookup E.ENCODERS t).getD []) p).getD []) f).isSome

/-- Whether the exact (type, protocol, format) key is present in the
`DECODERS` table. -/
def Engine.hasDec (E : Engine) (t p f : String) : Bool :=
  (alookup ((alookup ((alookup E.DECODERS t).getD []) p).getD []) f).isSome

/-- Whether a dataframe type is present in the `ENCODERS` table. -/
def Engine.hasEncType (E : Engine) (t : String) : Bool :=
  (alookup E.ENCODERS t).isSome

/-- Whether a (type, protocol) pair is present in the `ENCODERS` table. -/
def Engine.hasEncProt (E : Engine) (t p : String) : Bool :=
  (alookup ((alookup E.ENCODERS t).getD []) p).isSome

/-- Whether a handler's exact triple is already registered in the table
its capability selects. -/
def Engine.hasHandler (E : Engine) : Handlers → Bool
  | .enc e => E.hasEnc e.python_type e.protocol e.supported_format
  | .dec d => E.hasDec d.python_type d.protocol d.supported_format

/-- `register_handler` restricted to an encoder.  `_handler_finder`
walks `ENCODERS[type][protocol]`, creating the intermediate dicts as
needed; a duplicate at the exact format key raises `ValueError` (whose
message interpolates the triple) and, since the format key can only be
present when both intermediate levels already exist, leaves the tables
as they were; otherwise the handler is inserted and, when
`default_for_type` is truthy, the per-type default format and protocol
are overwritten with the handler's. -/
def Engine.register_encoder (E : Engine) (h : StructuredDatasetEncoder)
    (default_for_type : Bool) : Engine × Option PyErr :=
  let pm := (alookup E.ENCODERS h.python_type).getD []
  let fm := (alookup pm h.protocol).getD []
  if (alookup fm h.supported_format).isSome then
    (E, some (PyErr.valueError h.python_type h.protocol h.supported_format))
  else
    let encs := aset E.ENCODERS h.python_type (aset pm h.protocol (aset fm h.supported_format h))
    if default_for_type then
      (⟨encs, E.DECODERS,
        aset E.DEFAULT_PROTOCOLS h.python_type h.protocol,
        aset E.DEFAULT_FORMATS h.python_type h.supported_format,
        E.type_assertions_enabled⟩, none)
    else
      (⟨encs, E.DECODERS, E.DEFAULT_PROTOCOLS, E.DEFAULT_FORMATS,
        E.type_assertions_enabled⟩, none)

/-- `register_handler` restricted to a decoder; identical shape over the
`DECODERS` table. -/
def Engine.register_decoder (E : Engine) (h : StructuredDatasetDecoder)
    (default_for_type : Bool) : Engine × Option PyErr :=
  let pm := (alookup E.DECODERS h.python_type).getD []
  let fm := (alookup pm h.protocol).getD []
  if (alookup fm h.supported_format).isSome then
    (E, some (PyErr.valueError h.python_type h.protocol h.supported_format))
  else
    let decs := aset E.DECODERS h.python_type (aset pm h.protocol (aset fm h.supported_format h))
    if default_for_type then
      (⟨E.ENCODERS, decs,
        aset E.DEFAULT_PROTOCOLS h.python_type h.protocol,
        aset E.DEFAULT_FORMATS h.python_type h.supported_format,
        E.type_assertions_enabled⟩, none)
    else
      (⟨E.ENCODERS, decs, E.DEFAULT_PROTOCOLS, E.DEFAULT_FORMATS,
        E.type_assertions_enabled⟩, none)

/-- `register_handler(h, default_for_type)`: dispatch on the capability
of the handler, as `_handler_finder`'s `isinstance` checks do. -/
def Engine.register_handler (E : Engine) (h : Handlers) (default_for_type : Bool) :
    Engine × Option PyErr :=
  match h with
  | .enc e => E.register_encoder e default_for_type
  | .dec d => E.register_decoder d default_for_type

/-- A statically expected Python type at the engine's boundary: the
`StructuredDataset` wrapper class (or a subclass of it), or a concrete
dataframe class given by its name.  The source branches on
`issubclass(python_type, StructuredDataset)`. -/
inductive PyType where
  | sdType
  | df (t : String)
deriving DecidableEq

/-- `assert_type` of the engine: its body is a bare `return`, so it
accepts every (type, value) pair. -/
def Engine.assert_type (E : Engine) (t : PyType) (v : PyVal) : Except PyErr Unit :=
  .ok ()

/-- Word character of the regex class backslash-w, restricted to ASCII:
letters, digits and underscore. -/
def isWordChar (c : Char) : Bool := c.isAlphanum || c = '_'

/-- Scan for the leftmost match of the pattern: one or more word
characters immediately followed by colon-slash-slash.  The first
argument accumulates the already-scanned characters in reverse; on a
match the captured group is the maximal word-character run ending right
before the separator. -/
def searchSchemeAux : List Char → List Char → Option (List Char)
  | acc, ':' :: '/' :: '/' :: rest =>
    let run := acc.takeWhile isWordChar
    if run.isEmpty then searchSchemeAux ('/' :: '/' :: ':' :: acc) rest
    else some run.reverse
  | acc, c :: rest => searchSchemeAux (c :: acc) rest
  | _, [] => none

/-- The group captured by `re.search` with the source's scheme pattern
(word characters, then colon-slash-slash, then anything), or `none`
when `re.search` returns `None`. -/
def searchScheme (s : String) : Option String :=
  (searchSchemeAux [] s.toList).map fun l => String.mk l

/-- `encode(ctx, sd, df_type, protocol, format)`: three exact dict
membership checks, each missing level raising a bare `Exception` with
its own fixed message; on success the resolved encoder is invoked once
on the wrapper (its behaviour supplied by `encRun` keyed on the
encoder's id) and the resulting IDL value is wrapped into a `Literal`.
The returned list records the ids of the encoders invoked. -/
def Engine.encode (E : Engine) (encRun : Nat → PyVal → StructuredDatasetModel)
    (sd : PyVal) (df_type protocol format : String) :
    Except PyErr (Literal × List Nat) :=
  match alookup E.ENCODERS df_type with
  | none => .error (.exceptionMsg "not found")
  | some pm =>
    match alookup pm protocol with
    | none => .error (.exceptionMsg "not found 2")
    | some fm =>
      match alookup fm format with
      | none => .error (.exceptionMsg "not found 3")
      | some h => .ok (⟨⟨encRun h.id sd⟩⟩, [h.id])

/-- `to_literal(ctx, python_val, python_type, expected)`.  Wrapper
branch: assert the value is a wrapper, take the runtime class of its
contained dataframe, take the wrapper's `file_format` as the format,
index `DEFAULT_PROTOCOLS` by the dataframe class (a missing key raises
`KeyError`), and when the wrapper's URI is truthy run the scheme search:
the source then calls `.groups()` on the search result, which raises
`AttributeError` when the search returned `None`, and otherwise replaces
the protocol with the captured scheme.  Dataframe branch: read the
per-type default format and protocol (missing keys raise `KeyError`),
synthesize a wrapper around the raw value with metadata built from the
expected literal type, and encode with those defaults. -/
def Engine.to_literal (E : Engine) (encRun : Nat → PyVal → StructuredDatasetModel)
    (python_val : PyVal) (python_type : PyType) (expected : LiteralType) :
    Except PyErr (Literal × List Nat) :=
  match python_type with
  | .sdType =>
    match python_val with
    | .sd d uri ff md =>
      let df_type := pytypeOf d
      match alookup E.DEFAULT_PROTOCOLS df_type with
      | none => .error (.keyError df_type)
      | some p0 =>
        let protE : Except PyErr String :=
          match uri with
          | none => .ok p0
          | some u =>
            if u = "" then .ok p0
            else
              match searchScheme u with
              | none => .error .attributeError
              | some sch => .ok sch
        match protE with
        | .error e => .error e
        | .ok protocol => E.encode encRun (.sd d uri ff md) df_type protocol ff
    | _ => .error .assertionError
  | .df t =>
    match alookup E.DEFAULT_FORMATS t with
    | none => .error (.keyError t)
    | some fmt =>
      match alookup E.DEFAULT_PROTOCOLS t with
      | none => .error (.keyError t)
      | some protocol =>
        let meta : StructuredDatasetMetadata := ⟨fmt, expected.structured_dataset_type⟩
        let sd := StructuredDataset.init python_val none none (some meta)
        E.encode encRun sd t protocol fmt

/-- `open_as(ctx, lv, python_type)`: the body in the source is a bare
ellipsis expression, so the call performs no lookup, invokes no decoder
and returns Python `None`. -/
def Engine.open_as (E : Engine) (lv : Literal) (python_type : String) :
    Except PyErr (PyVal × List Nat) :=
  .ok (.pyNone, [])

/-- `to_python_value(ctx, lv, expected_python_type)`: read the literal's
URI and metadata; when the expected type is the wrapper class, call its
constructor with the keyword arguments the source passes
(`remote_path=uri, file_format="fmt", metadata=meta`); otherwise defer
to `open_as`.  The returned list records the ids of the decoders
invoked. -/
def Engine.to_python_value (E : Engine) (lv : Literal) (expected_python_type : PyType) :
    Except PyErr (PyVal × List Nat) :=
  let uri := lv.scalar.structured_dataset.uri
  let meta := lv.scalar.structured_dataset.metadata
  match expected_python_type with
  | .sdType =>
    (callSDInit [("remote_path", .vStr uri), ("file_format", .vStr "fmt"),
                 ("metadata", .vMeta (some meta))]).map fun v => (v, [])
  | .df t => E.open_as lv t

/-! ### Concrete fixtures used by the evaluated theorems -/

/-- A fixed encoder behaviour: every invocation writes to a fixed URI. -/
def encRun0 : Nat → PyVal → StructuredDatasetModel :=
  fun _ _ => ⟨"s3://written/out", ⟨"parquet", ⟨[]⟩⟩⟩

/-- An encoder bound to dataframe class `Frame`, protocol `s3`, format
`parquet`. -/
def encFrameS3 : StructuredDatasetEncoder := ⟨1, "Frame", "s3", "parquet"⟩

/-- An encoder bound to `Frame`, protocol `gs`, format `csv`. -/
def encFrameGsCsv : StructuredDatasetEncoder := ⟨2, "Frame", "gs", "csv"⟩

/-- A decoder bound to `Frame`, protocol `s3`, format `parquet`. -/
def decFrameS3 : StructuredDatasetDecoder := ⟨3, "Frame", "s3", "parquet"⟩

/-- An encoder bound to `Frame`, protocol `s3`, with the empty-string
(wildcard) format. -/
def encFrameWild : StructuredDatasetEncoder := ⟨4, "Frame", "s3", ""⟩

/-- An encoder bound to `Frame`, protocol `gs`, format `parquet`. -/
def encFrameGs : StructuredDatasetEncoder := ⟨5, "Frame", "gs", "parquet"⟩

/-- Engine with `encFrameS3` registered as default for `Frame`. -/
def E_s3 : Engine := (Engine.init.register_encoder encFrameS3 true).1

/-- Engine with `encFrameGsCsv` registered as default for `Frame`. -/
def E_csv : Engine := (Engine.init.register_encoder encFrameGsCsv true).1

/-- Engine with `encFrameGs` registered as default for `Frame`. -/
def E_gs : Engine := (Engine.init.register_encoder encFrameGs true).1

/-- Engine with `decFrameS3` registered as default for `Frame`. -/
def E_dec : Engine := (Engine.init.register_decoder decFrameS3 true).1

/-- Engine with the wildcard-format encoder registered for `Frame`. -/
def E_wild : Engine := (Engine.init.register_encoder encFrameWild true).1

/-- Engine after two affirmed registrations for `Frame`: first
`encFrameS3`, then `encFrameGsCsv`. -/
def E_two : Engine :=
  ((Engine.init.register_encoder encFrameS3 true).1.register_encoder encFrameGsCsv true).1

/-- An empty expected literal type (empty column list). -/
def ltEx : LiteralType := ⟨⟨[]⟩⟩

/-- A literal referencing an `s3` URI with `parquet` metadata. -/
def litS3 : Literal := ⟨⟨⟨"s3://bucket/key", ⟨"parquet", ⟨[]⟩⟩⟩⟩⟩

/-- A wrapper around a `Frame` dataframe with no URI, format and
metadata left to the constructor defaults. -/
def sdFrame : PyVal := StructuredDataset.init (.obj "Frame" 0) none none none

/-! ### Lemmas on the association-list operations -/

theorem alookup_aset_self {β : Type} (l : List (String × β)) (k : String) (v : β) :
    alookup (aset l k v) k = some v := by
  induction l with
  | nil => simp [aset, alookup]
  | cons kv t ih =>
    obtain ⟨k1, v1⟩ := kv
    by_cases h : k1 = k
    · simp [aset, h, alookup]
    · simp [aset, h, alookup, ih]

theorem alookup_aset_ne {β : Type} (l : List (String × β)) (k q : String) (v : β)
    (hne : k ≠ q) : alookup (aset l k v) q = alookup l q := by
  induction l with
  | nil => simp [aset, alookup, hne]
  | cons kv t ih =>
    obtain ⟨k1, v1⟩ := kv
    by_cases h : k1 = k
    · subst h; simp [aset, alookup, hne]
    · simp [aset, h, alookup, ih]

/-! ### Lemmas on registration -/

theorem register_encoder_dup (E : Engine) (h : StructuredDatasetEncoder) (d : Bool)
    (hdup : E.hasEnc h.python_type h.protocol h.supported_format = true) :
    E.register_encoder h d =
      (E, some (PyErr.valueError h.python_type h.protocol h.supported_format)) := by
  unfold Engine.hasEnc at hdup
  unfold Engine.register_encoder
  simp [hdup]

theorem register_decoder_dup (E : Engine) (h : StructuredDatasetDecoder) (d : Bool)
    (hdup : E.hasDec h.python_type h.protocol h.supported_format = true) :
    E.register_decoder h d =
      (E, some (PyErr.valueError h.python_type h.protocol h.supported_format)) := by
  unfold Engine.hasDec at hdup
  unfold Engine.register_decoder
  simp [hdup]

theorem register_encoder_fresh (E : Engine) (h : StructuredDatasetEncoder) (d : Bool)
    (hf : E.hasEnc h.python_type h.protocol h.supported_format = false) :
    E.register_encoder h d =
      (⟨aset E.ENCODERS h.python_type
          (aset ((alookup E.ENCODERS h.python_type).getD []) h.protocol
            (aset ((alookup ((alookup E.ENCODERS h.python_type).getD []) h.protocol).getD [])
              h.supported_format h)),
        E.DECODERS,
        (if d then aset E.DEFAULT_PROTOCOLS h.python_type h.protocol else E.DEFAULT_PROTOCOLS),
        (if d then aset E.DEFAULT_FORMATS h.python_type h.supported_format
          else E.DEFAULT_FORMATS),
        E.type_assertions_enabled⟩, none) := by
  unfold Engine.hasEnc at hf
  unfold Engine.register_encoder
  cases d <;> simp [hf]

theorem register_decoder_fresh (E : Engine) (h : StructuredDatasetDecoder) (d : Bool)
    (hf : E.hasDec h.python_type h.protocol h.supported_format = false) :
    E.register_decoder h d =
      (⟨E.ENCODERS,
        aset E.DECODERS h.python_type
          (aset ((alookup E.DECODERS h.python_type).getD []) h.protocol
            (aset ((alookup ((alookup E.DECODERS h.python_type).getD []) h.protocol).getD [])
              h.supported_format h)),
        (if d then aset E.DEFAULT_PROTOCOLS h.python_type h.protocol else E.DEFAULT_PROTOCOLS),
        (if d then aset E.DEFAULT_FORMATS h.python_type h.supported_format
          else E.DEFAULT_FORMATS),
        E.type_assertions_enabled⟩, none) := by
  unfold Engine.hasDec at hf
  unfold Engine.register_decoder
  cases d <;> simp [hf]

theorem register_encoder_DECODERS (E : Engine) (h : StructuredDatasetEncoder) (d : Bool) :
    (E.register_encoder h d).1.DECODERS = E.DECODERS := by
  cases hE : E.hasEnc h.python_type h.protocol h.supported_format
  · rw [register_encoder_fresh E h d hE]
  · rw [register_encoder_dup E h d hE]

theorem register_decoder_ENCODERS (E : Engine) (h : StructuredDatasetDecoder) (d : Bool) :
    (E.register_decoder h d).1.ENCODERS = E.ENCODERS := by
  cases hE : E.hasDec h.python_type h.protocol h.supported_format
  · rw [register_decoder_fresh E h d hE]
  · rw [register_decoder_dup E h d hE]

theorem hasDec_register_encoder (E : Engine) (h : StructuredDatasetEncoder) (d : Bool)
    (t p f : String) : (E.register_encoder h d).1.hasDec t p f = E.hasDec t p f := by
  unfold Engine.hasDec
  rw [register_encoder_DECODERS]

theorem hasEnc_register_decoder (E : Engine) (h : StructuredDatasetDecoder) (d : Bool)
    (t p f : String) : (E.register_decoder h d).1.hasEnc t p f = E.hasEnc t p f := by
  unfold Engine.hasEnc
  rw [register_decoder_ENCODERS]

theorem hasEnc_register_encoder_other (E : Engine) (h : StructuredDatasetEncoder) (d : Bool)
    (hf : E.hasEnc h.python_type h.protocol h.supported_format = false)
    (t p f : String)
    (hne : ¬(t = h.python_type ∧ p = h.protocol ∧ f = h.supported_format)) :
    (E.register_encoder h d).1.hasEnc t p f = E.hasEnc t p f := by
  rw [register_encoder_fresh E h d hf]
  unfold Engine.hasEnc
  dsimp only
  by_cases h1 : t = h.python_type
  · subst h1
    rw [alookup_aset_self]
    simp only [Option.getD_some]
    by_cases h2 : p = h.protocol
    · subst h2
      rw [alookup_aset_self]
      simp only [Option.getD_some]
      have h3 : h.supported_format ≠ f := fun hh => hne ⟨rfl, rfl, hh.symm⟩
      rw [alookup_aset_ne _ _ _ _ h3]
    · rw [alookup_aset_ne _ _ _ _ (Ne.symm h2)]
  · rw [alookup_aset_ne _ _ _ _ (Ne.symm h1)]

theorem hasDec_register_decoder_other (E : Engine) (h : StructuredDatasetDecoder) (d : Bool)
    (hf : E.hasDec h.python_type h.protocol h.supported_format = false)
    (t p f : String)
    (hne : ¬(t = h.python_type ∧ p = h.protocol ∧ f = h.supported_format)) :
    (E.register_decoder h d).1.hasDec t p f = E.hasDec t p f := by
  rw [register_decoder_fresh E h d hf]
  unfold Engine.hasDec
  dsimp only
  by_cases h1 : t = h.python_type
  · subst h1
    rw [alookup_aset_self]
    simp only [Option.getD_some]
    by_cases h2 : p = h.protocol
    · subst h2
      rw [alookup_aset_self]
      simp only [Option.getD_some]
      have h3 : h.supported_format ≠ f := fun hh => hne ⟨rfl, rfl, hh.symm⟩
      rw [alookup_aset_ne _ _ _ _ h3]
    · rw [alookup_aset_ne _ _ _ _ (Ne.symm h2)]
  · rw [alookup_aset_ne _ _ _ _ (Ne.symm h1)]

theorem register_handler_defaults_false (E : Engine) (h : Handlers) :
    (E.register_handler h false).1.DEFAULT_PROTOCOLS = E.DEFAULT_PROTOCOLS ∧
    (E.register_handler h false).1.DEFAULT_FORMATS = E.DEFAULT_FORMATS := by
  cases h with
  | enc e =>
    show (E.register_encoder e false).1.DEFAULT_PROTOCOLS = _ ∧
      (E.register_encoder e false).1.DEFAULT_FORMATS = _
    cases hE : E.hasEnc e.python_type e.protocol e.supported_format
    · rw [register_encoder_fresh E e false hE]; exact ⟨rfl, rfl⟩
    · rw [register_encoder_dup E e false hE]; exact ⟨rfl, rfl⟩
  | dec de =>
    show (E.register_decoder de false).1.DEFAULT_PROTOCOLS = _ ∧
      (E.register_decoder de false).1.DEFAULT_FORMATS = _
    cases hE : E.hasDec de.python_type de.protocol de.supported_format
    · rw [register_decoder_fresh E de false hE]; exact ⟨rfl, rfl⟩
    · rw [register_decoder_dup E de false hE]; exact ⟨rfl, rfl⟩

theorem register_handler_snd_fresh (E : Engine) (h : Handlers) (d : Bool)
    (hf : E.hasHandler h = false) : (E.register_handler h d).2 = none := by
  cases h with
  | enc e =>
    show (E.register_encoder e d).2 = none
    rw [register_encoder_fresh E e d hf]
  | dec de =>
    show (E.register_decoder de d).2 = none
    rw [register_decoder_fresh E de d hf]

theorem register_handler_true_defaults (E : Engine) (h : Handlers)
    (hf : E.hasHandler h = false) :
    alookup (E.register_handler h true).1.DEFAULT_PROTOCOLS h.hty = some h.hprot ∧
    alookup (E.register_handler h true).1.DEFAULT_FORMATS h.hty = some h.hfmt := by
  cases h with
  | enc e =>
    refine ⟨?_, ?_⟩
    · show alookup (E.register_encoder e true).1.DEFAULT_PROTOCOLS e.python_type
        = some e.protocol
      rw [register_encoder_fresh E e true hf]
      exact alookup_aset_self _ _ _
    · show alookup (E.register_encoder e true).1.DEFAULT_FORMATS e.python_type
        = some e.supported_format
      rw [register_encoder_fresh E e true hf]
      exact alookup_aset_self _ _ _
  | dec de =>
    refine ⟨?_, ?_⟩
    · show alookup (E.register_decoder de true).1.DEFAULT_PROTOCOLS de.python_type
        = some de.protocol
      rw [register_decoder_fresh E de true hf]
      exact alookup_aset_self _ _ _
    · show alookup (E.register_decoder de true).1.DEFAULT_FORMATS de.python_type
        = some de.supported_format
      rw [register_decoder_fresh E de true hf]
      exact alookup_aset_self _ _ _

/-! ### Claim theorems -/

/-- C1: the claim says a wrapper whose URI has no recognizable scheme
prefix silently falls back to the type's registered default protocol
and does not raise.  Evaluating the code at such an input shows the
opposite: with a default protocol registered for `Frame`, encoding a
wrapper over a `Frame` dataframe with URI `/local/path` raises
`AttributeError`, because `re.search` returns `None` and the source
calls `.groups()` on it. -/
theorem C1_no_scheme_uri_raises :
    E_s3.to_literal encRun0
        (StructuredDataset.init (.obj "Frame" 0) (some "/local/path") none none)
        .sdType ltEx
      = .error .attributeError := by decide

/-- C2: the claim says decoding a literal into the wrapper type returns
a newly constructed wrapper populated from the literal's URI and
succeeds even with no decoder registered.  Evaluating the code shows it
instead raises `TypeError`: the source calls the constructor with the
keyword `remote_path`, which is not a parameter of
`StructuredDataset.__init__`. -/
theorem C2_wrapper_decode_raises_type_error :
    Engine.init.to_python_value litS3 .sdType
      = .error (.typeError "remote_path") := by decide

/-- C7: the claim says decoding a literal into a concrete dataframe
type resolves a decoder through the three-level lookup and invokes its
decode capability.  Evaluating the code shows that even with a matching
decoder registered for (`Frame`, `s3`, `parquet`), the engine defers to
`open_as`, whose body is a bare ellipsis: it returns Python `None` with
an empty invocation trace — no lookup, no decoder invoked. -/
theorem C7_decode_invokes_no_decoder :
    E_dec.to_python_value litS3 (.df "Frame") = .ok (.pyNone, []) := by decide

/-- C8: the claim says a handler registered with the empty-string
format is a wildcard matching any requested format.  Evaluating the
code shows the lookup is an exact dict membership test: with an encoder
registered for (`Frame`, `s3`) under the empty-string format, a request
for format `parquet` raises the format-level not-found exception
instead of resolving to that handler. -/
theorem C8_wildcard_format_not_matched :
    E_wild.hasEnc "Frame" "s3" "" = true ∧
    E_wild.encode encRun0 sdFrame "Frame" "s3" "parquet"
      = .error (.exceptionMsg "not found 3") := by decide

/-- C10: `assert_type` accepts every (declared type, runtime value)
pair — its body is a bare `return` — and `__init__` records that type
assertions are disabled. -/
theorem C10_assert_type_never_rejects :
    (∀ (E : Engine) (t : PyType) (v : PyVal), E.assert_type t v = Except.ok ()) ∧
    Engine.init.type_assertions_enabled = false :=
  ⟨fun _ _ _ => rfl, rfl⟩

/-- C5 counterexample: the claim says the recorded default is that of
the *first* handler registered with `default_for_type` affirmed.  After
registering `encFrameS3` (protocol `s3`, format `parquet`) and then
`encFrameGsCsv` (protocol `gs`, format `csv`), both affirmed, the
recorded default for `Frame` is the second handler's, not the first's. -/
theorem C5_first_affirmed_does_not_stick :
    alookup E_two.DEFAULT_PROTOCOLS "Frame" = some "gs" ∧
    alookup E_two.DEFAULT_FORMATS "Frame" = some "csv" ∧
    ¬(alookup E_two.DEFAULT_PROTOCOLS "Frame" = some "s3" ∧
      alookup E_two.DEFAULT_FORMATS "Frame" = some "parquet") := by decide

/-- C6 counterexample: the claim says the dispatch-failure error
carries the offending (type, protocol, format) triple.  Lookup misses
at two distinct triples raise the identical error value, so the error
cannot carry the triple. -/
theorem C6_error_carries_no_triple :
    Engine.init.encode encRun0 sdFrame "Frame" "s3" "parquet"
        = Engine.init.encode encRun0 sdFrame "Other" "gs" "csv" ∧
    (("Frame", "s3", "parquet") : String × String × String) ≠ ("Other", "gs", "csv") ∧
    Engine.init.encode encRun0 sdFrame "Frame" "s3" "parquet"
        = .error (.exceptionMsg "not found") := by decide

/-- C9 counterexample: the claim says that when the wrapper's format is
unset the per-type default format recorded in the registry is used, so
with the default encoder for `Frame` registered under format `csv`,
encoding a wrapper with format unset should resolve that encoder.
Evaluating the code shows the wrapper branch uses the wrapper's
`file_format` attribute — which the constructor defaulted to
`parquet` — and the dispatch fails at the format level. -/
theorem C9_registry_default_format_not_used :
    alookup E_csv.DEFAULT_FORMATS "Frame" = some "csv" ∧
    E_csv.to_literal encRun0 sdFrame .sdType ltEx
      = .error (.exceptionMsg "not found 3") := by decide

/-- C3: registering a handler when an entry already exists at its exact
(type, protocol, format) key fails with the duplicate-handler error (the
`ValueError` whose message carries the triple) and leaves the registry
state unchanged; registering a fresh handler and then a handler for the
same type with a different format both succeed. -/
theorem C3_duplicate_rejected_and_fresh_succeed :
    (∀ (E : Engine) (h : Handlers) (d : Bool), E.hasHandler h = true →
        E.register_handler h d = (E, some (PyErr.valueError h.hty h.hprot h.hfmt))) ∧
    (∀ (E : Engine) (h1 h2 : Handlers) (d1 d2 : Bool),
        E.hasHandler h1 = false → E.hasHandler h2 = false →
        h2.hty = h1.hty → h2.hfmt ≠ h1.hfmt →
        (E.register_handler h1 d1).2 = none ∧
        ((E.register_handler h1 d1).1.register_handler h2 d2).2 = none) := by
  constructor
  · intro E h d hdup
    cases h with
    | enc e => exact register_encoder_dup E e d hdup
    | dec de => exact register_decoder_dup E de d hdup
  · intro E h1 h2 d1 d2 hf1 hf2 hty hfmt
    refine ⟨register_handler_snd_fresh E h1 d1 hf1, ?_⟩
    apply register_handler_snd_fresh
    cases h1 with
    | enc e1 =>
      cases h2 with
      | enc e2 =>
        show (E.register_encoder e1 d1).1.hasEnc e2.python_type e2.protocol
            e2.supported_format = false
        rw [hasEnc_register_encoder_other E e1 d1 hf1 e2.python_type e2.protocol
          e2.supported_format (fun hc => hfmt hc.2.2)]
        exact hf2
      | dec dd2 =>
        show (E.register_encoder e1 d1).1.hasDec dd2.python_type dd2.protocol
            dd2.supported_format = false
        rw [hasDec_register_encoder E e1 d1]
        exact hf2
    | dec dd1 =>
      cases h2 with
      | enc e2 =>
        show (E.register_decoder dd1 d1).1.hasEnc e2.python_type e2.protocol
            e2.supported_format = false
        rw [hasEnc_register_decoder E dd1 d1]
        exact hf2
      | dec dd2 =>
        show (E.register_decoder dd1 d1).1.hasDec dd2.python_type dd2.protocol
            dd2.supported_format = false
        rw [hasDec_register_decoder_other E dd1 d1 hf1 dd2.python_type dd2.protocol
          dd2.supported_format (fun hc => hfmt hc.2.2)]
        exact hf2

/-- C3 witness: the duplicate branch at a registered triple, and the
two successive fresh registrations for the same type with different
formats, evaluated on concrete registries. -/
theorem C3_witness :
    E_s3.register_handler (.enc encFrameS3) true
        = (E_s3, some (PyErr.valueError "Frame" "s3" "parquet")) ∧
    (Engine.init.register_handler (.enc encFrameS3) true).2 = none ∧
    ((Engine.init.register_handler (.enc encFrameS3) true).1.register_handler
        (.enc ⟨6, "Frame", "s3", "csv"⟩) false).2 = none :=
  ⟨C3_duplicate_rejected_and_fresh_succeed.1 E_s3 (.enc encFrameS3) true (by decide),
   (C3_duplicate_rejected_and_fresh_succeed.2 Engine.init (.enc encFrameS3)
      (.enc ⟨6, "Frame", "s3", "csv"⟩) true false (by decide) (by decide) rfl
      (by decide)).1,
   (C3_duplicate_rejected_and_fresh_succeed.2 Engine.init (.enc encFrameS3)
      (.enc ⟨6, "Frame", "s3", "csv"⟩) true false (by decide) (by decide) rfl
      (by decide)).2⟩

/-- C4: registering a handler for a type with `default_for_type` true
records that handler's protocol and format as the type's defaults, and
a subsequent registration with `default_for_type` false leaves the
recorded defaults unchanged. -/
theorem C4_make_default_records_and_false_preserves :
    ∀ (E : Engine) (h : Handlers), E.hasHandler h = false →
      (alookup (E.register_handler h true).1.DEFAULT_PROTOCOLS h.hty = some h.hprot ∧
       alookup (E.register_handler h true).1.DEFAULT_FORMATS h.hty = some h.hfmt) ∧
      ∀ (h2 : Handlers),
        alookup ((E.register_handler h true).1.register_handler h2 false).1.DEFAULT_PROTOCOLS
            h.hty = some h.hprot ∧
        alookup ((E.register_handler h true).1.register_handler h2 false).1.DEFAULT_FORMATS
            h.hty = some h.hfmt := by
  intro E h hf
  have hset := register_handler_true_defaults E h hf
  refine ⟨hset, fun h2 => ?_⟩
  obtain ⟨hp, hfm⟩ := register_handler_defaults_false (E.register_handler h true).1 h2
  rw [hp, hfm]
  exact hset

/-- C4 witness: registering the (`Frame`, `gs`, `parquet`) encoder as
default and then the (`Frame`, `gs`, `csv`) encoder without default
leaves `gs` / `parquet` recorded for `Frame`. -/
theorem C4_witness :
    (alookup (Engine.init.register_handler (.enc encFrameGs) true).1.DEFAULT_PROTOCOLS
        "Frame" = some "gs" ∧
     alookup (Engine.init.register_handler (.enc encFrameGs) true).1.DEFAULT_FORMATS
        "Frame" = some "parquet") ∧
    (alookup ((Engine.init.register_handler (.enc encFrameGs) true).1.register_handler
        (.enc encFrameGsCsv) false).1.DEFAULT_PROTOCOLS "Frame" = some "gs" ∧
     alookup ((Engine.init.register_handler (.enc encFrameGs) true).1.register_handler
        (.enc encFrameGsCsv) false).1.DEFAULT_FORMATS "Frame" = some "parquet") :=
  ⟨(C4_make_default_records_and_false_preserves Engine.init (.enc encFrameGs)
      (by decide)).1,
   (C4_make_default_records_and_false_preserves Engine.init (.enc encFrameGs)
      (by decide)).2 (.enc encFrameGsCsv)⟩

/-- C5 amended: the recorded default protocol and format of a type are
those of the most recently registered handler for it with
`default_for_type` affirmed — every affirmed registration overwrites
them — while a registration with `default_for_type` false never changes
them. -/
theorem C5_defaults_follow_latest_affirmed :
    ∀ (E : Engine) (h : Handlers),
      (E.hasHandler h = false →
        alookup (E.register_handler h true).1.DEFAULT_PROTOCOLS h.hty = some h.hprot ∧
        alookup (E.register_handler h true).1.DEFAULT_FORMATS h.hty = some h.hfmt) ∧
      ((E.register_handler h false).1.DEFAULT_PROTOCOLS = E.DEFAULT_PROTOCOLS ∧
       (E.register_handler h false).1.DEFAULT_FORMATS = E.DEFAULT_FORMATS) :=
  fun E h => ⟨register_handler_true_defaults E h, register_handler_defaults_false E h⟩

/-- C5 witness: on a registry whose default for `Frame` is already
`s3` / `parquet`, an affirmed registration of the (`Frame`, `gs`, `csv`)
encoder overwrites the default, and an unaffirmed registration changes
nothing. -/
theorem C5_witness :
    (alookup (E_s3.register_handler (.enc encFrameGsCsv) true).1.DEFAULT_PROTOCOLS
        "Frame" = some "gs" ∧
     alookup (E_s3.register_handler (.enc encFrameGsCsv) true).1.DEFAULT_FORMATS
        "Frame" = some "csv") ∧
    ((E_s3.register_handler (.enc encFrameGs) false).1.DEFAULT_PROTOCOLS
        = E_s3.DEFAULT_PROTOCOLS ∧
     (E_s3.register_handler (.enc encFrameGs) false).1.DEFAULT_FORMATS
        = E_s3.DEFAULT_FORMATS) :=
  ⟨(C5_defaults_follow_latest_affirmed E_s3 (.enc encFrameGsCsv)).1 (by decide),
   (C5_defaults_follow_latest_affirmed E_s3 (.enc encFrameGs)).2⟩

/-- C6 amended: a dispatch with an unregistered combination fails with
a bare exception whose message identifies which of the three levels was
unresolved (distinct messages for the type, protocol and format
levels), but the error does not carry the offending triple. -/
theorem C6_not_found_identifies_level :
    ∀ (E : Engine) (encRun : Nat → PyVal → StructuredDatasetModel) (sd : PyVal)
      (t p f : String),
      (E.hasEncType t = false →
        E.encode encRun sd t p f = .error (.exceptionMsg "not found")) ∧
      (E.hasEncType t = true → E.hasEncProt t p = false →
        E.encode encRun sd t p f = .error (.exceptionMsg "not found 2")) ∧
      (E.hasEncProt t p = true → E.hasEnc t p f = false →
        E.encode encRun sd t p f = .error (.exceptionMsg "not found 3")) := by
  intro E encRun sd t p f
  refine ⟨?_, ?_, ?_⟩
  · intro h1
    unfold Engine.hasEncType at h1
    unfold Engine.encode
    cases hT : alookup E.ENCODERS t with
    | none => rfl
    | some pm => rw [hT] at h1; simp at h1
  · intro h1 h2
    unfold Engine.hasEncType at h1
    unfold Engine.hasEncProt at h2
    unfold Engine.encode
    cases hT : alookup E.ENCODERS t with
    | none => rw [hT] at h1; simp at h1
    | some pm =>
      rw [hT] at h2
      simp only [Option.getD_some] at h2
      dsimp only
      cases hP : alookup pm p with
      | none => rfl
      | some fm => rw [hP] at h2; simp at h2
  · intro h1 h2
    unfold Engine.hasEncProt at h1
    unfold Engine.hasEnc at h2
    unfold Engine.encode
    cases hT : alookup E.ENCODERS t with
    | none => rw [hT] at h1; simp [alookup] at h1
    | some pm =>
      rw [hT] at h1
      rw [hT] at h2
      simp only [Option.getD_some] at h1 h2
      dsimp only
      cases hP : alookup pm p with
      | none => rw [hP] at h1; simp at h1
      | some fm =>
        rw [hP] at h2
        simp only [Option.getD_some] at h2
        dsimp only
        cases hF : alookup fm f with
        | none => rfl
        | some hh => rw [hF] at h2; simp at h2

/-- C6 witness: the three levels evaluated on concrete registries: a
missing type, a missing protocol under a present type, and a missing
format under a present (type, protocol). -/
theorem C6_witness :
    Engine.init.encode encRun0 sdFrame "Frame" "s3" "parquet"
        = .error (.exceptionMsg "not found") ∧
    E_s3.encode encRun0 sdFrame "Frame" "gs" "parquet"
        = .error (.exceptionMsg "not found 2") ∧
    E_s3.encode encRun0 sdFrame "Frame" "s3" "csv"
        = .error (.exceptionMsg "not found 3") :=
  ⟨(C6_not_found_identifies_level Engine.init encRun0 sdFrame "Frame" "s3" "parquet").1
      (by decide),
   (C6_not_found_identifies_level E_s3 encRun0 sdFrame "Frame" "gs" "parquet").2.1
      (by decide) (by decide),
   (C6_not_found_identifies_level E_s3 encRun0 sdFrame "Frame" "s3" "csv").2.2
      (by decide) (by decide)⟩

/-- C9 amended: in the wrapper branch the format used for handler
lookup is always the wrapper's `file_format` attribute, which the
constructor defaults to `parquet` when unset — the per-type default
format from the registry is not consulted; the spec's scenario holds:
under the (`Frame`, `gs`, `parquet`) default encoder, encoding a
wrapper with no URI and format unset selects protocol `gs` and format
`parquet` and invokes that encoder exactly once. -/
theorem C9_wrapper_format_rule_and_scenario :
    (∀ (E : Engine) (encRun : Nat → PyVal → StructuredDatasetModel) (d : PyVal)
        (ff : Option String) (md : Option StructuredDatasetMetadata)
        (expected : LiteralType) (p0 : String),
      alookup E.DEFAULT_PROTOCOLS (pytypeOf d) = some p0 →
      E.to_literal encRun (StructuredDataset.init d none ff md) .sdType expected
        = E.encode encRun (StructuredDataset.init d none ff md) (pytypeOf d) p0
            (ff.getD "parquet")) ∧
    (∀ (encRun : Nat → PyVal → StructuredDatasetModel),
      E_gs.to_literal encRun sdFrame .sdType ltEx
        = .ok (⟨⟨encRun 5 sdFrame⟩⟩, [5])) := by
  constructor
  · intro E encRun d ff md expected p0 hp
    unfold StructuredDataset.init
    unfold Engine.to_literal
    dsimp only
    rw [hp]
  · intro encRun
    rfl

/-- C9 witness: the format rule applied at a registry whose default
format for `Frame` is `csv`, showing the dispatch format is still the
constructor default `parquet`, plus the scenario instance. -/
theorem C9_witness :
    E_csv.to_literal encRun0 sdFrame .sdType ltEx
        = E_csv.encode encRun0 sdFrame "Frame" "gs" "parquet" ∧
    E_gs.to_literal encRun0 sdFrame .sdType ltEx
        = .ok (⟨⟨encRun0 5 sdFrame⟩⟩, [5]) :=
  ⟨C9_wrapper_format_rule_and_scenario.1 E_csv encRun0 (.obj "Frame" 0) none none
      ltEx "gs" (by decide),
   C9_wrapper_format_rule_and_scenario.2 encRun0⟩

end Flytekit
